import Mathlib

/-!
Verification of the Redpanda operator's reconciliation controller
(`src/go/k8s/internal/controller/redpanda/redpanda_controller.go`).

The Go controller is shallowly embedded: Kubernetes label/annotation maps
become association lists of strings, the API-server store becomes explicit
record fields (`Option` marks presence; a failed `Get` of any kind is
`none`, since `tryMigration` treats every `Get` error alike), and each
controller function becomes a pure Lean function returning the mutated
objects together with a log of the store operations, events and aggregated
step errors it produced.
-/

namespace RedpandaVerify

/-! ## Kubernetes map model

Go `map[string]string` values are embedded as association lists with unique
keys.  `kvLookup` is map indexing, `kvSet` is map assignment, `kvEqual` is
`maps.Equal`. -/

abbrev KVMap := List (String × String)

def kvLookup (m : KVMap) (k : String) : Option String :=
  match m with
  | [] => none
  | (k', v) :: rest => if k' == k then some v else kvLookup rest k

def kvSet (m : KVMap) (k v : String) : KVMap :=
  if m.any (fun kv => kv.1 == k) then
    m.map (fun kv => if kv.1 == k then (k, v) else kv)
  else
    m ++ [(k, v)]

def kvEqual (a b : KVMap) : Bool :=
  a.all (fun kv => kvLookup b kv.1 == some kv.2) &&
  b.all (fun kv => kvLookup a kv.1 == some kv.2)

/-- Metadata shared by every legacy object the migration engine touches:
labels and annotations (`client.Object.GetLabels`/`GetAnnotations`). -/
structure KObject where
  labels : KVMap
  annotations : KVMap
deriving DecidableEq

def KObject.empty : KObject := { labels := [], annotations := [] }

/-! ## `hasLabelsAndAnnotations` / `setHelmLabelsAndAnnotations`
(lines 495-528 of the controller) -/

def helm : String := "Helm"

/-- Embeds `hasLabelsAndAnnotations` from the source: one range loop over the
labels looking for `app.kubernetes.io/managed-by: Helm`, one range loop
over the annotations recording whether the release-name and
release-namespace annotations match the parent. -/
def hasLabelsAndAnnotations (o : KObject) (rpName rpNs : String) : Bool :=
  let manageByLabel := o.labels.foldl
    (fun acc kv => if kv.1 == "app.kubernetes.io/managed-by" && kv.2 == helm then true else acc)
    false
  let pair := o.annotations.foldl
    (fun (acc : Bool × Bool) kv =>
      if kv.1 == "meta.helm.sh/release-name" then (kv.2 == rpName, acc.2)
      else if kv.1 == "meta.helm.sh/release-namespace" then (acc.1, kv.2 == rpNs)
      else acc)
    (false, false)
  manageByLabel && pair.1 && pair.2

/-- Embeds `setHelmLabelsAndAnnotations` from the source: builds fresh maps and
replaces the object's labels and annotations wholesale. -/
def setHelmLabelsAndAnnotations (o : KObject) (rpName rpNs : String) : KObject :=
  { o with
    labels := [("app.kubernetes.io/managed-by", helm)],
    annotations :=
      [("meta.helm.sh/release-name", rpName), ("meta.helm.sh/release-namespace", rpNs)] }

/-! ## Readiness latch (`checkIfResourceIsReady`, lines 589-619)

The stored tri-state is the Go `*bool` status field: `none` is the nil
pointer (Unknown), `some true` is Ready, `some false` is NotReady. -/

/-- Embeds `ptr.Equal` from `k8s.io/utils/ptr`: true iff both arguments are nil or
both dereference to the same value.  In particular a nil pointer is NOT
equal to a non-nil pointer. -/
def ptrEqual (a b : Option Bool) : Bool :=
  match a, b with
  | none, none => true
  | some x, some y => x == y
  | _, _ => false

inductive ReadyEvent where
  | notReadyMsg
  | readyMsg
deriving DecidableEq

structure LatchOut where
  next : Option Bool
  events : List ReadyEvent
  ready : Bool
deriving DecidableEq

/-- Embeds `checkIfResourceIsReady` from the source.  `isGenerationCurrent` is the
caller's `repo.Generation != repo.Status.ObservedGeneration` (despite the
name it is true when the generation is STALE); `statusReady` is the stored
`*bool` readiness field of the parent's status. -/
def checkIfResourceIsReady (isGenerationCurrent isStatusConditionReady : Bool)
    (statusReady : Option Bool) : LatchOut :=
  let isStatusReadyNILorTRUE := ptrEqual statusReady (some true)
  let isStatusReadyNILorFALSE := ptrEqual statusReady (some false)
  if isGenerationCurrent || !isStatusConditionReady then
    { next := some false,
      events := if isStatusReadyNILorTRUE then [ReadyEvent.notReadyMsg] else [],
      ready := false }
  else if isStatusConditionReady && isStatusReadyNILorFALSE then
    { next := some true, events := [ReadyEvent.readyMsg], ready := true }
  else
    { next := statusReady, events := [], ready := true }

/-- Drive the latch over a tick sequence.  Each tick is
`(generationFresh, conditionReady)` in the spec's vocabulary; the caller
computes `isGenerationCurrent = !generationFresh`.  Returns the final
stored tri-state and the per-tick event lists. -/
def runLatch (ticks : List (Bool × Bool)) (prev : Option Bool) :
    Option Bool × List (List ReadyEvent) :=
  match ticks with
  | [] => (prev, [])
  | (gf, cr) :: rest =>
    let out := checkIfResourceIsReady (!gf) cr prev
    let tail := runLatch rest out.next
    (tail.1, out.events :: tail.2)

/-- C1: over the tick sequence (generationFresh, conditionReady) =
[F,F,T,T,F] starting from Unknown (nil), the code emits NO event at tick 1
(because `ptr.Equal(nil, ptr.To(true))` is false, contrary to the
`isStatusReadyNILorTRUE` variable's name and to the spec), one "ready"
event at tick 3 and one "not ready" event at tick 5 — 2 events total, not
the 3 the claim states — and the stored tri-state ends NotReady. -/
theorem c1_readiness_latch_tick_sequence :
    runLatch [(false, false), (false, false), (true, true), (true, true), (false, false)] none
      = (some false,
         [[], [], [ReadyEvent.readyMsg], [], [ReadyEvent.notReadyMsg]]) := by
  decide

/-! ## Deletion protocol (`reconcileDelete` lines 688-699,
`deleteHelmRelease` lines 726-752)

The store is the list of HelmRelease names that currently exist in the
parent's namespace.  A foreground-propagation delete is asynchronous: the
call is recorded but the object's disappearance is the environment's move
between reconcile invocations. -/

/-- The parent's finalizer marker.  Modelled from the spec: `FinalizerKey`
is declared elsewhere in the repository (only its uses appear in this
file); the spec calls it "a well-known finalizer marker" and the e2e
fixture shows the value `operator.redpanda.com/finalizer`. -/
def FinalizerKey : String := "operator.redpanda.com/finalizer"

structure RpDelStatus where
  helmRelease : String
  helmRepository : String
deriving DecidableEq

structure RpDel where
  finalizers : List String
  status : RpDelStatus
deriving DecidableEq

/-- Embeds `deleteHelmRelease` from the source.  Returns the (possibly updated)
parent, the number of Delete calls issued (0 or 1, foreground
propagation), and the returned error if any.  Branches in source order:
empty recorded name → succeed untouched; `Get` NotFound → clear both
recorded names and succeed; found → issue the delete and return the
distinguished "wait for helm release deletion" error. -/
def deleteHelmRelease (store : List String) (rp : RpDel) : RpDel × Nat × Option String :=
  if rp.status.helmRelease == "" then
    (rp, 0, none)
  else if store.contains rp.status.helmRelease then
    (rp, 1, some "wait for helm release deletion")
  else
    ({ rp with status := { helmRelease := "", helmRepository := "" } }, 0, none)

structure DelOut where
  rp : RpDel
  deleteCalls : Nat
  updateCalls : Nat
  err : Option String
deriving DecidableEq

/-- Embeds `reconcileDelete` from the source: run `deleteHelmRelease`; on error
return it (the finalizer is untouched); on success remove the finalizer if
present and persist the parent (one Update call). -/
def reconcileDelete (store : List String) (rp : RpDel) : DelOut :=
  let r := deleteHelmRelease store rp
  match r.2.2 with
  | some e => { rp := r.1, deleteCalls := r.2.1, updateCalls := 0, err := some e }
  | none =>
    if r.1.finalizers.contains FinalizerKey then
      { rp := { r.1 with finalizers := r.1.finalizers.filter (fun f => f != FinalizerKey) },
        deleteCalls := r.2.1, updateCalls := 1, err := none }
    else
      { rp := r.1, deleteCalls := r.2.1, updateCalls := 0, err := none }

/-- C2: while the recorded HelmRelease still exists, `reconcileDelete`
issues exactly one delete call, returns the distinguished "wait for helm
release deletion" error and leaves the parent (hence its finalizer)
untouched; a subsequent invocation that observes the release absent issues
no delete, removes the finalizer and persists the parent — one delete call
over the whole deletion sequence. -/
theorem c2_deletion_protocol_safety (store store2 : List String) (rp : RpDel)
    (hname : rp.status.helmRelease ≠ "")
    (hpresent : rp.status.helmRelease ∈ store)
    (hfin : FinalizerKey ∈ rp.finalizers)
    (habsent : rp.status.helmRelease ∉ store2) :
    (reconcileDelete store rp).err = some "wait for helm release deletion" ∧
    (reconcileDelete store rp).deleteCalls = 1 ∧
    (reconcileDelete store rp).updateCalls = 0 ∧
    (reconcileDelete store rp).rp = rp ∧
    (reconcileDelete store2 (reconcileDelete store rp).rp).deleteCalls = 0 ∧
    (reconcileDelete store2 (reconcileDelete store rp).rp).updateCalls = 1 ∧
    (reconcileDelete store2 (reconcileDelete store rp).rp).err = none ∧
    (reconcileDelete store2 (reconcileDelete store rp).rp).rp.finalizers.contains FinalizerKey
      = false ∧
    (reconcileDelete store rp).deleteCalls
      + (reconcileDelete store2 (reconcileDelete store rp).rp).deleteCalls = 1 := by
  have hne : (rp.status.helmRelease == "") = false := by
    simp [hname]
  have h1 : reconcileDelete store rp
      = { rp := rp, deleteCalls := 1, updateCalls := 0,
          err := some "wait for helm release deletion" } := by
    simp [reconcileDelete, deleteHelmRelease, hne, hpresent]
  have h2 : reconcileDelete store2 rp
      = { rp := { rp with
            status := { helmRelease := "", helmRepository := "" },
            finalizers := rp.finalizers.filter (fun f => f != FinalizerKey) },
          deleteCalls := 0, updateCalls := 1, err := none } := by
    simp [reconcileDelete, deleteHelmRelease, hne, habsent, hfin]
  refine ⟨by rw [h1], by rw [h1], by rw [h1], by rw [h1], ?_, ?_, ?_, ?_, ?_⟩ <;>
      rw [h1]
  · simp [h2]
  · simp [h2]
  · simp [h2]
  · simp only [h2]
    simp [List.mem_filter]
  · simp [h2]

/-- Witness for C2 at a concrete deletion sequence. -/
theorem c2_deletion_protocol_safety_witness :
    (reconcileDelete ["rel"]
        { finalizers := [FinalizerKey],
          status := { helmRelease := "rel", helmRepository := "repo" } }).err
      = some "wait for helm release deletion" ∧
    (reconcileDelete ["rel"]
        { finalizers := [FinalizerKey],
          status := { helmRelease := "rel", helmRepository := "repo" } }).deleteCalls = 1 ∧
    (reconcileDelete ["rel"]
        { finalizers := [FinalizerKey],
          status := { helmRelease := "rel", helmRepository := "repo" } }).updateCalls = 0 ∧
    (reconcileDelete ["rel"]
        { finalizers := [FinalizerKey],
          status := { helmRelease := "rel", helmRepository := "repo" } }).rp
      = { finalizers := [FinalizerKey],
          status := { helmRelease := "rel", helmRepository := "repo" } } ∧
    (reconcileDelete []
        (reconcileDelete ["rel"]
          { finalizers := [FinalizerKey],
            status := { helmRelease := "rel", helmRepository := "repo" } }).rp).deleteCalls
      = 0 ∧
    (reconcileDelete []
        (reconcileDelete ["rel"]
          { finalizers := [FinalizerKey],
            status := { helmRelease := "rel", helmRepository := "repo" } }).rp).updateCalls
      = 1 ∧
    (reconcileDelete []
        (reconcileDelete ["rel"]
          { finalizers := [FinalizerKey],
            status := { helmRelease := "rel", helmRepository := "repo" } }).rp).err = none ∧
    (reconcileDelete []
        (reconcileDelete ["rel"]
          { finalizers := [FinalizerKey],
            status := { helmRelease := "rel", helmRepository := "repo" } }).rp).rp.finalizers.contains
        FinalizerKey = false ∧
    (reconcileDelete ["rel"]
        { finalizers := [FinalizerKey],
          status := { helmRelease := "rel", helmRepository := "repo" } }).deleteCalls
      + (reconcileDelete []
          (reconcileDelete ["rel"]
            { finalizers := [FinalizerKey],
              status := { helmRelease := "rel", helmRepository := "repo" } }).rp).deleteCalls
      = 1 :=
  c2_deletion_protocol_safety ["rel"] []
    { finalizers := [FinalizerKey],
      status := { helmRelease := "rel", helmRepository := "repo" } }
    (by decide) (by decide) (by decide) (by decide)

/-- C7 counterexample: with no releaseName recorded but a non-empty
recorded HelmRepository, `deleteHelmRelease` succeeds immediately WITHOUT
clearing the recorded source name — the claim says both recorded names are
cleared in this branch. -/
theorem c7_delete_empty_counterexample :
    (deleteHelmRelease []
        { finalizers := [],
          status := { helmRelease := "", helmRepository := "redpanda-repository" } }).1.status.helmRepository
      ≠ "" := by
  decide

/-- C7 amended: with no releaseName recorded, `deleteHelmRelease` succeeds
immediately with no store call and the status left entirely unchanged
(nothing is cleared); with a name recorded whose HelmRelease is NotFound,
it clears both recorded names and succeeds with no delete call. -/
theorem c7_delete_amended (store : List String) (rp : RpDel) :
    (rp.status.helmRelease = "" → deleteHelmRelease store rp = (rp, 0, none)) ∧
    (rp.status.helmRelease ≠ "" → rp.status.helmRelease ∉ store →
      deleteHelmRelease store rp
        = ({ rp with status := { helmRelease := "", helmRepository := "" } }, 0, none)) := by
  constructor
  · intro h
    simp [deleteHelmRelease, h]
  · intro h habs
    have hne : (rp.status.helmRelease == "") = false := by simp [h]
    simp [deleteHelmRelease, hne, habs]

/-- Witness for C7's amended claim on both branches. -/
theorem c7_delete_amended_witness :
    deleteHelmRelease ["other"]
        { finalizers := [], status := { helmRelease := "", helmRepository := "repo" } }
      = ({ finalizers := [], status := { helmRelease := "", helmRepository := "repo" } }, 0, none) ∧
    deleteHelmRelease ["other"]
        { finalizers := [], status := { helmRelease := "gone", helmRepository := "repo" } }
      = ({ finalizers := [], status := { helmRelease := "", helmRepository := "" } }, 0, none) :=
  ⟨(c7_delete_amended ["other"]
      { finalizers := [], status := { helmRelease := "", helmRepository := "repo" } }).1 rfl,
   (c7_delete_amended ["other"]
      { finalizers := [], status := { helmRelease := "gone", helmRepository := "repo" } }).2
     (by decide) (by decide)⟩

/-! ## HelmRelease templates and the update decision
(`createHelmReleaseFromTemplate` lines 754-823,
`helmReleaseRequiresUpdate` lines 861-877, `helmChartRequiresUpdate`
lines 882-893, the found-branch of `reconcileHelmRelease` lines 647-664)

Durations are embedded as seconds.  The opaque values payload is embedded
as a `String` compared for equality, matching `reflect.DeepEqual` on the
parsed values. -/

structure UpgradeRemediationM where
  retries : Int
  strategy : Option String
deriving DecidableEq

structure UpgradeM where
  force : Bool
  cleanupOnFail : Bool
  preserveValues : Bool
  remediation : Option UpgradeRemediationM
deriving DecidableEq

/-- Embeds `v1alpha1.HelmUpgrade` as referenced by the controller: every field is
a pointer in Go, hence an `Option` here. -/
structure HelmUpgradeCR where
  force : Option Bool
  cleanupOnFail : Option Bool
  preserveValues : Option Bool
  remediation : Option UpgradeRemediationM
deriving DecidableEq

/-- The parent's `spec.chartRef` fields read by the controller. -/
structure ChartRef where
  chartVersion : String
  timeout : Option Nat
  upgrade : Option HelmUpgradeCR
deriving DecidableEq

structure HelmChartTemplateM where
  chart : String
  version : String
  interval : Nat
  sourceRefName : String
deriving DecidableEq

structure HelmReleaseSpecM where
  chart : HelmChartTemplateM
  values : String
  interval : Nat
  timeout : Nat
  upgrade : UpgradeM
deriving DecidableEq

/-- Embeds `createHelmReleaseFromTemplate` from the source (the returned spec;
the SHA-256 fingerprint of the serialized values is computed there for a
log line only and is not part of the returned object, so it has no
counterpart in the result).  Defaults exactly as in the code: timeout 15
minutes unless the parent sets one, chart interval 1 minute, release
interval 30 seconds, upgrade `{remediation: rollback, retries: 1}` with
each field overridden only when the parent's chartRef sets it. -/
def createHelmReleaseFromTemplate (cr : ChartRef) (vals : String) (repoName : String) :
    HelmReleaseSpecM :=
  let timeout := match cr.timeout with
    | none => 900
    | some t => t
  let upgrade0 : UpgradeM :=
    { force := false, cleanupOnFail := false, preserveValues := false,
      remediation := some { retries := 1, strategy := some "rollback" } }
  let upgrade := match cr.upgrade with
    | none => upgrade0
    | some hu =>
      let u1 := match hu.force with
        | some f => { upgrade0 with force := f }
        | none => upgrade0
      let u2 := match hu.cleanupOnFail with
        | some c => { u1 with cleanupOnFail := c }
        | none => u1
      let u3 := match hu.preserveValues with
        | some p => { u2 with preserveValues := p }
        | none => u2
      match hu.remediation with
        | some r => { u3 with remediation := some r }
        | none => u3
  { chart :=
      { chart := "redpanda", version := cr.chartVersion, interval := 60,
        sourceRefName := repoName },
    values := vals,
    interval := 30,
    timeout := timeout,
    upgrade := upgrade }

/-- Embeds `helmChartRequiresUpdate` from the source.  NOTE the binding at the
call site: `template` is the LIVE object's chart and `chart` is the
freshly built template's chart, so the version comparison is skipped when
the live object's recorded version is empty. -/
def helmChartRequiresUpdate (template chart : HelmChartTemplateM) : Bool :=
  template.chart != chart.chart ||
  (template.version != "" && template.version != chart.version)

/-- Embeds `helmReleaseRequiresUpdate` from the source: values payload, chart,
then interval, each in turn; the switch returning true on the first
difference is a disjunction. -/
def helmReleaseRequiresUpdate (hr hrTemplate : HelmReleaseSpecM) : Bool :=
  hr.values != hrTemplate.values ||
  helmChartRequiresUpdate hr.chart hrTemplate.chart ||
  hr.interval != hrTemplate.interval

structure HRFoundOut where
  spec : HelmReleaseSpecM
  updateCalls : Nat
  events : Nat
  recordedHelmRelease : Option String
deriving DecidableEq

/-- The found-branch of `reconcileHelmRelease`: if the live object differs
from the template per `helmReleaseRequiresUpdate`, overwrite its spec with
the template, issue the Update, emit the update event and re-record the
release name; otherwise leave everything untouched. -/
def reconcileHelmReleaseFound (releaseName : String) (hr hrTemplate : HelmReleaseSpecM) :
    HRFoundOut :=
  if helmReleaseRequiresUpdate hr hrTemplate then
    { spec := hrTemplate, updateCalls := 1, events := 1,
      recordedHelmRelease := some releaseName }
  else
    { spec := hr, updateCalls := 0, events := 0, recordedHelmRelease := none }

/-- The claim's update condition, taken from the spec's words: a
structural difference in the values payload, the chart identity+version,
or the interval. -/
def specStructuralDiff (hr hrTemplate : HelmReleaseSpecM) : Bool :=
  hr.values != hrTemplate.values ||
  hr.chart.chart != hrTemplate.chart.chart ||
  hr.chart.version != hrTemplate.chart.version ||
  hr.interval != hrTemplate.interval

/-- C6 counterexample: a live HelmRelease whose recorded chart version is
empty while the desired template carries version "5.0.0" differs
structurally in the chart version, yet `helmReleaseRequiresUpdate` says no
and the found-branch performs no overwrite — refuting the claimed
"if and only if". -/
theorem c6_update_decision_counterexample :
    specStructuralDiff
        { chart := { chart := "redpanda", version := "", interval := 60,
                     sourceRefName := "repo" },
          values := "v", interval := 30, timeout := 900,
          upgrade := { force := false, cleanupOnFail := false, preserveValues := false,
                       remediation := none } }
        { chart := { chart := "redpanda", version := "5.0.0", interval := 60,
                     sourceRefName := "repo" },
          values := "v", interval := 30, timeout := 900,
          upgrade := { force := false, cleanupOnFail := false, preserveValues := false,
                       remediation := none } } = true ∧
    helmReleaseRequiresUpdate
        { chart := { chart := "redpanda", version := "", interval := 60,
                     sourceRefName := "repo" },
          values := "v", interval := 30, timeout := 900,
          upgrade := { force := false, cleanupOnFail := false, preserveValues := false,
                       remediation := none } }
        { chart := { chart := "redpanda", version := "5.0.0", interval := 60,
                     sourceRefName := "repo" },
          values := "v", interval := 30, timeout := 900,
          upgrade := { force := false, cleanupOnFail := false, preserveValues := false,
                       remediation := none } } = false ∧
    (reconcileHelmReleaseFound "rel"
        { chart := { chart := "redpanda", version := "", interval := 60,
                     sourceRefName := "repo" },
          values := "v", interval := 30, timeout := 900,
          upgrade := { force := false, cleanupOnFail := false, preserveValues := false,
                       remediation := none } }
        { chart := { chart := "redpanda", version := "5.0.0", interval := 60,
                     sourceRefName := "repo" },
          values := "v", interval := 30, timeout := 900,
          upgrade := { force := false, cleanupOnFail := false, preserveValues := false,
                       remediation := none } }).updateCalls = 0 := by
  decide

/-- C6 amended: the live object is overwritten (spec replaced by the
template, one update event, name re-recorded) exactly when the values
payload differs, the chart name differs, the chart version differs WITH
the live object's recorded version non-empty, or the interval differs; the
decision is a function of those fields alone (the logged SHA fingerprint
is not an input of `helmReleaseRequiresUpdate`). -/
theorem c6_update_decision_amended (rn : String) (hr t : HelmReleaseSpecM) :
    helmReleaseRequiresUpdate hr t
      = (hr.values != t.values || hr.chart.chart != t.chart.chart ||
         (hr.chart.version != "" && hr.chart.version != t.chart.version) ||
         hr.interval != t.interval) ∧
    (reconcileHelmReleaseFound rn hr t).updateCalls
      = (if helmReleaseRequiresUpdate hr t then 1 else 0) ∧
    (reconcileHelmReleaseFound rn hr t).spec
      = (if helmReleaseRequiresUpdate hr t then t else hr) ∧
    (reconcileHelmReleaseFound rn hr t).events
      = (if helmReleaseRequiresUpdate hr t then 1 else 0) ∧
    (reconcileHelmReleaseFound rn hr t).recordedHelmRelease
      = (if helmReleaseRequiresUpdate hr t then some rn else none) := by
  refine ⟨?_, ?_, ?_, ?_, ?_⟩
  · simp [helmReleaseRequiresUpdate, helmChartRequiresUpdate, Bool.or_assoc]
  all_goals
    by_cases h : helmReleaseRequiresUpdate hr t = true <;>
      simp [reconcileHelmReleaseFound, h]

/-- C8: in the built template, the timeout is the 15-minute default unless
the parent's chartRef sets one, the release interval is the fixed 30
seconds and the chart interval the fixed 1 minute, the chart version comes
from the parent, and the upgrade policy is the default
`{remediation: rollback, retries: 1}` with exactly the explicitly set
(non-nil) chartRef upgrade fields overriding it — every unset field keeps
its default. -/
theorem c8_template_defaults (cr : ChartRef) (vals repoName : String) :
    (createHelmReleaseFromTemplate cr vals repoName).timeout = cr.timeout.getD 900 ∧
    (createHelmReleaseFromTemplate cr vals repoName).interval = 30 ∧
    (createHelmReleaseFromTemplate cr vals repoName).chart.interval = 60 ∧
    (createHelmReleaseFromTemplate cr vals repoName).chart.chart = "redpanda" ∧
    (createHelmReleaseFromTemplate cr vals repoName).chart.version = cr.chartVersion ∧
    (createHelmReleaseFromTemplate cr vals repoName).values = vals ∧
    (createHelmReleaseFromTemplate cr vals repoName).upgrade.force
      = (cr.upgrade.bind HelmUpgradeCR.force).getD false ∧
    (createHelmReleaseFromTemplate cr vals repoName).upgrade.cleanupOnFail
      = (cr.upgrade.bind HelmUpgradeCR.cleanupOnFail).getD false ∧
    (createHelmReleaseFromTemplate cr vals repoName).upgrade.preserveValues
      = (cr.upgrade.bind HelmUpgradeCR.preserveValues).getD false ∧
    (createHelmReleaseFromTemplate cr vals repoName).upgrade.remediation
      = some ((cr.upgrade.bind HelmUpgradeCR.remediation).getD
          { retries := 1, strategy := some "rollback" }) := by
  obtain ⟨v, tmo, hu⟩ := cr
  cases hu with
  | none => cases tmo <;> simp [createHelmReleaseFromTemplate]
  | some u =>
    obtain ⟨f, c, p, r⟩ := u
    cases tmo <;> cases f <;> cases c <;> cases p <;> cases r <;>
      simp [createHelmReleaseFromTemplate]

/-! ## Migration engine (`tryMigration`, lines 185-493)

The store holds one slot per legacy resource the procedure touches.
`none` means the corresponding `Get`/`List` call fails (any error,
NotFound included — `tryMigration` joins every fetch error into the
aggregate without distinguishing kinds, and never creates these objects);
writes always succeed, so the only error entries the model can produce
are failed fetches.  Every store operation and every emitted event is
logged. -/

/-- Modelled from the spec: the "unmanaged" sentinel annotation value
(`NotManaged` is declared elsewhere in the repository; only its uses
appear in this file). -/
def NotManaged : String := "false"

def managedPath : String := "/managed"

/-- Embeds `vectorzied_v1alpha1.GroupVersion.Group + managedPath`. -/
def vectorizedManagedKey : String := "redpanda.vectorized.io" ++ managedPath

/-- Modelled from the spec: the two legacy console finalizers
(`consolepkg.ConsoleSAFinalizer` / `ConsoleACLFinalizer` live outside the
provided sources; their exact values are opaque tokens). -/
def ConsoleSAFinalizer : String := "consoles.redpanda.vectorized.io/sa"

/-- Modelled from the spec: see `ConsoleSAFinalizer`. -/
def ConsoleACLFinalizer : String := "consoles.redpanda.vectorized.io/acl"

structure ClusterObj where
  annotations : KVMap
  finalizers : List String
deriving DecidableEq

structure ConsoleObj where
  annotations : KVMap
  finalizers : List String
deriving DecidableEq

structure PodObj where
  name : String
  labels : KVMap
  finalizers : List String
deriving DecidableEq

/-- A Service: stamped metadata plus the spec selector. -/
structure ServiceObj where
  meta : KObject
  selector : KVMap
deriving DecidableEq

inductive Propagation where
  | unspecified
  | orphan
  | foreground
deriving DecidableEq

inductive Target where
  | cluster
  | console
  | pod (name : String)
  | internalSvc
  | externalSvc
  | serviceAccount
  | pdb
  | sts
  | consoleSA
  | consoleSvc
  | consoleDeploy
  | consoleIngress
deriving DecidableEq

/-- A store mutation issued by the migration engine. -/
inductive Op where
  | update (t : Target)
  | delete (t : Target) (p : Propagation)
deriving DecidableEq

/-- One aggregated-error entry per failed step, identified by the step
that produced it (each entry wraps that step's underlying store error,
mirroring the `errors.Join` accumulation). -/
inductive MigErr where
  | getCluster
  | getConsole
  | listPods
  | getInternalSvc
  | getExternalSvc
  | getSA
  | getPDB
  | getSTS
  | getConsoleSA
  | getConsoleSvc
  | getConsoleDeploy
  | getConsoleIngress
deriving DecidableEq

structure MigStore where
  cluster : Option ClusterObj
  console : Option ConsoleObj
  pods : Option (List PodObj)
  internalSvc : Option ServiceObj
  externalSvc : Option KObject
  serviceAccount : Option KObject
  pdb : Option KObject
  sts : Option KObject
  consoleSA : Option KObject
  consoleSvc : Option ServiceObj
  consoleDeploy : Option KObject
  consoleIngress : Option KObject
deriving DecidableEq

/-- The parent fields `tryMigration` branches on. -/
structure RpMig where
  name : String
  nspace : String
  consoleEnabled : Option Bool
deriving DecidableEq

/-- Outcome of one migration step: the slot's new content, the store
mutations issued, the events emitted, and the step's error entry if its
fetch failed. -/
structure StepOut (α : Type) where
  slot : Option α
  ops : List Op
  events : List String
  err : Option MigErr
deriving DecidableEq

/-- Modelled from the spec: `isRedpandaClusterManaged` (declared elsewhere
in the repository) — the legacy Cluster is still under legacy management
unless it carries the unmanaged sentinel annotation, the one
`disableRedpandaReconciliation` writes. -/
def isRedpandaClusterManaged (c : ClusterObj) : Bool :=
  !(kvLookup c.annotations vectorizedManagedKey == some NotManaged)

/-- Embeds `disableRedpandaReconciliation` from the source. -/
def disableRedpandaReconciliation (c : ClusterObj) : ClusterObj :=
  { c with annotations := kvSet c.annotations vectorizedManagedKey NotManaged }

/-- Modelled from the spec: `isConsoleManaged` (declared elsewhere in the
repository) — same sentinel-annotation check as the Cluster's. -/
def isConsoleManaged (c : ConsoleObj) : Bool :=
  !(kvLookup c.annotations vectorizedManagedKey == some NotManaged)

/-- Embeds `disableConsoleReconciliation` from the source. -/
def disableConsoleReconciliation (c : ConsoleObj) : ConsoleObj :=
  { c with annotations := kvSet c.annotations vectorizedManagedKey NotManaged }

/-- Step 1: legacy Cluster — if still under legacy management, annotate it
disabled, update it and emit an event. -/
def clusterStep (slot : Option ClusterObj) : StepOut ClusterObj :=
  match slot with
  | none => { slot := none, ops := [], events := [], err := some MigErr.getCluster }
  | some c =>
    if isRedpandaClusterManaged c then
      { slot := some (disableRedpandaReconciliation c),
        ops := [Op.update Target.cluster],
        events := ["update Cluster custom resource"],
        err := none }
    else
      { slot := some c, ops := [], events := [], err := none }

/-- Step 2: legacy Console — if still managed or carrying either legacy
finalizer, annotate it disabled, strip both finalizers, update, emit. -/
def consoleStep (slot : Option ConsoleObj) : StepOut ConsoleObj :=
  match slot with
  | none => { slot := none, ops := [], events := [], err := some MigErr.getConsole }
  | some c =>
    if isConsoleManaged c || c.finalizers.contains ConsoleSAFinalizer
        || c.finalizers.contains ConsoleACLFinalizer then
      { slot := some
          { annotations := (disableConsoleReconciliation c).annotations,
            finalizers :=
              (c.finalizers.filter (fun f => f != ConsoleSAFinalizer)).filter
                (fun f => f != ConsoleACLFinalizer) },
        ops := [Op.update Target.console],
        events := ["update Console custom resource"],
        err := none }
    else
      { slot := some c, ops := [], events := [], err := none }

/-- The pod-loop skip condition: component label already set to
`redpanda-statefulset` while the finalizer is absent. -/
def podSkip (p : PodObj) : Bool :=
  kvLookup p.labels "app.kubernetes.io/component" == some "redpanda-statefulset" &&
  !(p.finalizers.contains FinalizerKey)

/-- The pod mutation: set the component label, strip the finalizer. -/
def migratedPod (p : PodObj) : PodObj :=
  { p with
    labels := kvSet p.labels "app.kubernetes.io/component" "redpanda-statefulset",
    finalizers := p.finalizers.filter (fun f => f != FinalizerKey) }

/-- Step 3: list the parent's pods; for each pod not skipped, apply the
mutation, update it and emit an event. -/
def podsStep (slot : Option (List PodObj)) : StepOut (List PodObj) :=
  match slot with
  | none => { slot := none, ops := [], events := [], err := some MigErr.listPods }
  | some ps =>
    { slot := some (ps.map (fun p => if podSkip p then p else migratedPod p)),
      ops := ps.filterMap
        (fun p => if podSkip p then none else some (Op.update (Target.pod p.name))),
      events := ps.filterMap
        (fun p => if podSkip p then none else some "update Redpanda Pod"),
      err := none }

/-- Step 4: internal Service — stamp labels/annotations and overwrite the
selector unless both are already correct. -/
def internalServiceStep (rpName rpNs : String) (slot : Option ServiceObj) :
    StepOut ServiceObj :=
  match slot with
  | none => { slot := none, ops := [], events := [], err := some MigErr.getInternalSvc }
  | some svc =>
    if !hasLabelsAndAnnotations svc.meta rpName rpNs
        || !kvEqual svc.selector
            [("app.kubernetes.io/instance", rpName), ("app.kubernetes.io/name", "redpanda")] then
      { slot := some
          { meta := setHelmLabelsAndAnnotations svc.meta rpName rpNs,
            selector :=
              [("app.kubernetes.io/instance", rpName), ("app.kubernetes.io/name", "redpanda")] },
        ops := [Op.update Target.internalSvc],
        events := ["update internal Service"],
        err := none }
    else
      { slot := some svc, ops := [], events := [], err := none }

/-- Steps 5-7 and the console ServiceAccount/Ingress sub-steps share this
shape: stamp the helm labels/annotations if absent, update, emit. -/
def stampStep (rpName rpNs : String) (t : Target) (msg : String) (e : MigErr)
    (slot : Option KObject) : StepOut KObject :=
  match slot with
  | none => { slot := none, ops := [], events := [], err := some e }
  | some o =>
    if !hasLabelsAndAnnotations o rpName rpNs then
      { slot := some (setHelmLabelsAndAnnotations o rpName rpNs),
        ops := [Op.update t],
        events := [msg],
        err := none }
    else
      { slot := some o, ops := [], events := [], err := none }

/-- Step 8: StatefulSet — if it lacks the new-management labels, delete it
with ORPHAN propagation (never an in-place update). -/
def stsStep (rpName rpNs : String) (slot : Option KObject) : StepOut KObject :=
  match slot with
  | none => { slot := none, ops := [], events := [], err := some MigErr.getSTS }
  | some o =>
    if !hasLabelsAndAnnotations o rpName rpNs then
      { slot := none,
        ops := [Op.delete Target.sts Propagation.orphan],
        events := ["delete StatefulSet with orphant propagation mode"],
        err := none }
    else
      { slot := some o, ops := [], events := [], err := none }

/-- Console Service sub-step: like the internal Service but with the
console selector. -/
def consoleServiceStep (rpName rpNs : String) (slot : Option ServiceObj) :
    StepOut ServiceObj :=
  match slot with
  | none => { slot := none, ops := [], events := [], err := some MigErr.getConsoleSvc }
  | some svc =>
    if !hasLabelsAndAnnotations svc.meta rpName rpNs
        || !kvEqual svc.selector
            [("app.kubernetes.io/instance", rpName), ("app.kubernetes.io/name", "console")] then
      { slot := some
          { meta := setHelmLabelsAndAnnotations svc.meta rpName rpNs,
            selector :=
              [("app.kubernetes.io/instance", rpName), ("app.kubernetes.io/name", "console")] },
        ops := [Op.update Target.consoleSvc],
        events := ["update console Service"],
        err := none }
    else
      { slot := some svc, ops := [], events := [], err := none }

/-- Console Deployment sub-step.  Faithful to the source's line 460: the
guard tests `hasLabelsAndAnnotations(&sts, rp)` — the STATEFULSET variable
fetched in step 8 (its zero value if that fetch failed), NOT the fetched
Deployment — and on failure of that test deletes the Deployment with the
client's default (unspecified) propagation. -/
def consoleDeployStep (rpName rpNs : String) (stsVal : KObject) (slot : Option KObject) :
    StepOut KObject :=
  match slot with
  | none => { slot := none, ops := [], events := [], err := some MigErr.getConsoleDeploy }
  | some o =>
    if !hasLabelsAndAnnotations stsVal rpName rpNs then
      { slot := none,
        ops := [Op.delete Target.consoleDeploy Propagation.unspecified],
        events := ["delete console Deployment"],
        err := none }
    else
      { slot := some o, ops := [], events := [], err := none }

structure MigOut where
  store : MigStore
  ops : List Op
  events : List String
  errs : List MigErr
deriving DecidableEq

/-- Embeds `tryMigration` from the source: the eight steps in program order, then
the console block (ServiceAccount, Service, Deployment, Ingress) when the
console component is enabled (`ptr.Deref(enabled, true)`).  Error entries
accumulate via `errors.Join(new, acc)`, i.e. the flattened aggregate lists
the most recent failure first. -/
def tryMigration (rp : RpMig) (s : MigStore) : MigOut :=
  let r1 := clusterStep s.cluster
  let r2 := consoleStep s.console
  let r3 := podsStep s.pods
  let r4 := internalServiceStep rp.name rp.nspace s.internalSvc
  let r5 := stampStep rp.name rp.nspace Target.externalSvc "update external Service"
    MigErr.getExternalSvc s.externalSvc
  let r6 := stampStep rp.name rp.nspace Target.serviceAccount "update ServiceAccount"
    MigErr.getSA s.serviceAccount
  let r7 := stampStep rp.name rp.nspace Target.pdb "update PodDistributionBudget"
    MigErr.getPDB s.pdb
  let r8 := stsStep rp.name rp.nspace s.sts
  let consoleOn := rp.consoleEnabled.getD true
  let r9 := if consoleOn then
      stampStep rp.name rp.nspace Target.consoleSA "update console ServiceAccount"
        MigErr.getConsoleSA s.consoleSA
    else { slot := s.consoleSA, ops := [], events := [], err := none }
  let r10 := if consoleOn then consoleServiceStep rp.name rp.nspace s.consoleSvc
    else { slot := s.consoleSvc, ops := [], events := [], err := none }
  let r11 := if consoleOn then
      consoleDeployStep rp.name rp.nspace (s.sts.getD KObject.empty) s.consoleDeploy
    else { slot := s.consoleDeploy, ops := [], events := [], err := none }
  let r12 := if consoleOn then
      stampStep rp.name rp.nspace Target.consoleIngress "update console Ingress"
        MigErr.getConsoleIngress s.consoleIngress
    else { slot := s.consoleIngress, ops := [], events := [], err := none }
  { store :=
      { cluster := r1.slot, console := r2.slot, pods := r3.slot,
        internalSvc := r4.slot, externalSvc := r5.slot, serviceAccount := r6.slot,
        pdb := r7.slot, sts := r8.slot, consoleSA := r9.slot, consoleSvc := r10.slot,
        consoleDeploy := r11.slot, consoleIngress := r12.slot },
    ops := r1.ops ++ r2.ops ++ r3.ops ++ r4.ops ++ r5.ops ++ r6.ops ++ r7.ops ++ r8.ops
      ++ r9.ops ++ r10.ops ++ r11.ops ++ r12.ops,
    events := r1.events ++ r2.events ++ r3.events ++ r4.events ++ r5.events ++ r6.events
      ++ r7.events ++ r8.events ++ r9.events ++ r10.events ++ r11.events ++ r12.events,
    errs :=
      [r12.err, r11.err, r10.err, r9.err, r8.err, r7.err, r6.err, r5.err, r4.err,
        r3.err, r2.err, r1.err].filterMap id }

/-! ### Migration idempotence (C4) -/

/-- A store slot is present and its content passes the step's check. -/
def slotOK {α : Type} (f : α → Bool) (o : Option α) : Bool :=
  match o with
  | some a => f a
  | none => false

theorem slotOK_true {α : Type} {f : α → Bool} {o : Option α} (h : slotOK f o = true) :
    ∃ a, o = some a ∧ f a = true := by
  cases o with
  | none => simp [slotOK] at h
  | some a => exact ⟨a, rfl, h⟩

/-- Every step's equality check is already satisfied: every fetch
succeeds, the legacy Cluster and Console are already disabled, every pod
already carries the component label without the finalizer, and every
stamped resource already has the helm labels/annotations (and the correct
selector where one is enforced). -/
def migStoreMigrated (rp : RpMig) (s : MigStore) : Bool :=
  slotOK (fun c => !isRedpandaClusterManaged c) s.cluster &&
  slotOK (fun c => !(isConsoleManaged c || c.finalizers.contains ConsoleSAFinalizer
      || c.finalizers.contains ConsoleACLFinalizer)) s.console &&
  slotOK (fun ps => ps.all podSkip) s.pods &&
  slotOK (fun svc => hasLabelsAndAnnotations svc.meta rp.name rp.nspace &&
      kvEqual svc.selector
        [("app.kubernetes.io/instance", rp.name), ("app.kubernetes.io/name", "redpanda")])
    s.internalSvc &&
  slotOK (fun o => hasLabelsAndAnnotations o rp.name rp.nspace) s.externalSvc &&
  slotOK (fun o => hasLabelsAndAnnotations o rp.name rp.nspace) s.serviceAccount &&
  slotOK (fun o => hasLabelsAndAnnotations o rp.name rp.nspace) s.pdb &&
  slotOK (fun o => hasLabelsAndAnnotations o rp.name rp.nspace) s.sts &&
  slotOK (fun o => hasLabelsAndAnnotations o rp.name rp.nspace) s.consoleSA &&
  slotOK (fun svc => hasLabelsAndAnnotations svc.meta rp.name rp.nspace &&
      kvEqual svc.selector
        [("app.kubernetes.io/instance", rp.name), ("app.kubernetes.io/name", "console")])
    s.consoleSvc &&
  slotOK (fun _ => true) s.consoleDeploy &&
  slotOK (fun o => hasLabelsAndAnnotations o rp.name rp.nspace) s.consoleIngress

theorem clusterStep_skip {c : ClusterObj} (h : isRedpandaClusterManaged c = false) :
    clusterStep (some c) = { slot := some c, ops := [], events := [], err := none } := by
  simp [clusterStep, h]

theorem consoleStep_skip {c : ConsoleObj}
    (h : (isConsoleManaged c || c.finalizers.contains ConsoleSAFinalizer
        || c.finalizers.contains ConsoleACLFinalizer) = false) :
    consoleStep (some c) = { slot := some c, ops := [], events := [], err := none } := by
  simp only [consoleStep]
  rw [h]
  simp

theorem pods_map_skip :
    ∀ ps : List PodObj, ps.all podSkip = true →
      ps.map (fun p => if podSkip p then p else migratedPod p) = ps := by
  intro ps
  induction ps with
  | nil => intro _; rfl
  | cons p rest ih =>
    intro h
    simp only [List.all_cons, Bool.and_eq_true] at h
    simp [h.1, ih h.2]

theorem pods_filterMap_skip {α : Type} (f : PodObj → α) :
    ∀ ps : List PodObj, ps.all podSkip = true →
      ps.filterMap (fun p => if podSkip p then none else some (f p)) = [] := by
  intro ps
  induction ps with
  | nil => intro _; rfl
  | cons p rest ih =>
    intro h
    simp only [List.all_cons, Bool.and_eq_true] at h
    simp [h.1, ih h.2]

theorem podsStep_skip {ps : List PodObj} (h : ps.all podSkip = true) :
    podsStep (some ps) = { slot := some ps, ops := [], events := [], err := none } := by
  simp [podsStep, pods_map_skip ps h, pods_filterMap_skip _ ps h]

theorem internalServiceStep_skip {rpName rpNs : String} {svc : ServiceObj}
    (h1 : hasLabelsAndAnnotations svc.meta rpName rpNs = true)
    (h2 : kvEqual svc.selector
        [("app.kubernetes.io/instance", rpName), ("app.kubernetes.io/name", "redpanda")] = true) :
    internalServiceStep rpName rpNs (some svc)
      = { slot := some svc, ops := [], events := [], err := none } := by
  simp [internalServiceStep, h1, h2]

theorem stampStep_skip {rpName rpNs : String} {t : Target} {msg : String} {e : MigErr}
    {o : KObject} (h : hasLabelsAndAnnotations o rpName rpNs = true) :
    stampStep rpName rpNs t msg e (some o)
      = { slot := some o, ops := [], events := [], err := none } := by
  simp [stampStep, h]

theorem stsStep_skip {rpName rpNs : String} {o : KObject}
    (h : hasLabelsAndAnnotations o rpName rpNs = true) :
    stsStep rpName rpNs (some o) = { slot := some o, ops := [], events := [], err := none } := by
  simp [stsStep, h]

theorem consoleServiceStep_skip {rpName rpNs : String} {svc : ServiceObj}
    (h1 : hasLabelsAndAnnotations svc.meta rpName rpNs = true)
    (h2 : kvEqual svc.selector
        [("app.kubernetes.io/instance", rpName), ("app.kubernetes.io/name", "console")] = true) :
    consoleServiceStep rpName rpNs (some svc)
      = { slot := some svc, ops := [], events := [], err := none } := by
  simp [consoleServiceStep, h1, h2]

theorem consoleDeployStep_skip {rpName rpNs : String} {stsVal o : KObject}
    (h : hasLabelsAndAnnotations stsVal rpName rpNs = true) :
    consoleDeployStep rpName rpNs stsVal (some o)
      = { slot := some o, ops := [], events := [], err := none } := by
  simp [consoleDeployStep, h]

/-- C4: on a resource set where every step's equality check is already
satisfied, `tryMigration` performs zero store mutations, emits zero
events, collects zero errors and leaves the store unchanged. -/
theorem c4_migration_idempotent (rp : RpMig) (s : MigStore)
    (h : migStoreMigrated rp s = true) :
    tryMigration rp s = { store := s, ops := [], events := [], errs := [] } := by
  simp only [migStoreMigrated, Bool.and_eq_true] at h
  obtain ⟨⟨⟨⟨⟨⟨⟨⟨⟨⟨⟨h1, h2⟩, h3⟩, h4⟩, h5⟩, h6⟩, h7⟩, h8⟩, h9⟩, h10⟩, h11⟩, h12⟩ := h
  obtain ⟨c1, e1, f1⟩ := slotOK_true h1
  obtain ⟨c2, e2, f2⟩ := slotOK_true h2
  obtain ⟨ps3, e3, f3⟩ := slotOK_true h3
  obtain ⟨v4, e4, f4⟩ := slotOK_true h4
  obtain ⟨o5, e5, f5⟩ := slotOK_true h5
  obtain ⟨o6, e6, f6⟩ := slotOK_true h6
  obtain ⟨o7, e7, f7⟩ := slotOK_true h7
  obtain ⟨o8, e8, f8⟩ := slotOK_true h8
  obtain ⟨o9, e9, f9⟩ := slotOK_true h9
  obtain ⟨v10, e10, f10⟩ := slotOK_true h10
  obtain ⟨o11, e11, _⟩ := slotOK_true h11
  obtain ⟨o12, e12, f12⟩ := slotOK_true h12
  rw [Bool.not_eq_true'] at f1
  rw [Bool.not_eq_true'] at f2
  rw [Bool.and_eq_true] at f4
  rw [Bool.and_eq_true] at f10
  have hmig : tryMigration rp s
      = { store :=
            { cluster := some c1, console := some c2, pods := some ps3,
              internalSvc := some v4, externalSvc := some o5, serviceAccount := some o6,
              pdb := some o7, sts := some o8, consoleSA := some o9, consoleSvc := some v10,
              consoleDeploy := some o11, consoleIngress := some o12 },
          ops := [], events := [], errs := [] } := by
    simp [tryMigration, e1, e2, e3, e4, e5, e6, e7, e8, e9, e10, e11, e12,
      clusterStep_skip f1, consoleStep_skip f2, podsStep_skip f3,
      internalServiceStep_skip f4.1 f4.2, stampStep_skip f5, stampStep_skip f6,
      stampStep_skip f7, stsStep_skip f8, stampStep_skip f9,
      consoleServiceStep_skip f10.1 f10.2, consoleDeployStep_skip f8,
      stampStep_skip f12]
  rw [hmig]
  have hs : s =
      { cluster := some c1, console := some c2, pods := some ps3,
        internalSvc := some v4, externalSvc := some o5, serviceAccount := some o6,
        pdb := some o7, sts := some o8, consoleSA := some o9, consoleSvc := some v10,
        consoleDeploy := some o11, consoleIngress := some o12 } := by
    obtain ⟨a, b, c, d, e, f, g, i, j, k, l, m⟩ := s
    simp_all
  rw [hs]

/-- Concrete parent used by the migration examples. -/
def rpMigEx : RpMig := { name := "rp", nspace := "ns", consoleEnabled := none }

/-- An object already carrying the helm ownership labels/annotations for
`rpMigEx`. -/
def helmObjEx : KObject :=
  { labels := [("app.kubernetes.io/managed-by", "Helm")],
    annotations :=
      [("meta.helm.sh/release-name", "rp"), ("meta.helm.sh/release-namespace", "ns")] }

/-- A legacy Cluster already carrying the unmanaged sentinel. -/
def disabledClusterEx : ClusterObj :=
  { annotations := [("redpanda.vectorized.io/managed", "false")], finalizers := [] }

/-- A legacy Console already carrying the unmanaged sentinel, no legacy
finalizers. -/
def disabledConsoleEx : ConsoleObj :=
  { annotations := [("redpanda.vectorized.io/managed", "false")], finalizers := [] }

/-- A pod already labelled with the component label and without the
finalizer. -/
def migratedPodEx : PodObj :=
  { name := "rp-0", labels := [("app.kubernetes.io/component", "redpanda-statefulset")],
    finalizers := [] }

/-- The internal Service with helm markings and the data-plane selector. -/
def internalSvcEx : ServiceObj :=
  { meta := helmObjEx,
    selector := [("app.kubernetes.io/instance", "rp"), ("app.kubernetes.io/name", "redpanda")] }

/-- The console Service with helm markings and the console selector. -/
def consoleSvcEx : ServiceObj :=
  { meta := helmObjEx,
    selector := [("app.kubernetes.io/instance", "rp"), ("app.kubernetes.io/name", "console")] }

/-- A fully migrated store for `rpMigEx`. -/
def migratedStoreEx : MigStore :=
  { cluster := some disabledClusterEx,
    console := some disabledConsoleEx,
    pods := some [migratedPodEx],
    internalSvc := some internalSvcEx,
    externalSvc := some helmObjEx,
    serviceAccount := some helmObjEx,
    pdb := some helmObjEx,
    sts := some helmObjEx,
    consoleSA := some helmObjEx,
    consoleSvc := some consoleSvcEx,
    consoleDeploy := some helmObjEx,
    consoleIngress := some helmObjEx }

/-- Witness for C4 on a concrete fully-migrated store. -/
theorem c4_migration_idempotent_witness :
    migStoreMigrated rpMigEx migratedStoreEx = true ∧
    tryMigration rpMigEx migratedStoreEx
      = { store := migratedStoreEx, ops := [], events := [], errs := [] } :=
  ⟨by decide, c4_migration_idempotent rpMigEx migratedStoreEx (by decide)⟩

/-- C3: the console-Deployment adoption step tests the STATEFULSET's
labels, not the Deployment's own.  On a store where the console Deployment
already carries the full helm labels/annotations but the StatefulSet does
not, the Deployment is deleted anyway (with default, non-orphan
propagation, plus the event); dually, a Deployment lacking the labels is
NOT deleted when the StatefulSet has them.  This refutes the claim that
the delete happens exactly when the Deployment itself lacks the labels,
confirming the spec's open question about the defect. -/
theorem c3_console_deploy_check_uses_sts_labels :
    hasLabelsAndAnnotations helmObjEx rpMigEx.name rpMigEx.nspace = true ∧
    Op.delete Target.consoleDeploy Propagation.unspecified
      ∈ (tryMigration rpMigEx { migratedStoreEx with sts := some KObject.empty }).ops ∧
    "delete console Deployment"
      ∈ (tryMigration rpMigEx { migratedStoreEx with sts := some KObject.empty }).events ∧
    hasLabelsAndAnnotations KObject.empty rpMigEx.name rpMigEx.nspace = false ∧
    Op.delete Target.consoleDeploy Propagation.unspecified
      ∉ (tryMigration rpMigEx { migratedStoreEx with consoleDeploy := some KObject.empty }).ops ∧
    Op.update Target.consoleDeploy
      ∉ (tryMigration rpMigEx { migratedStoreEx with consoleDeploy := some KObject.empty }).ops := by
  decide

/-! ### Migration partial failure (C5) -/

/-- The error entry a step contributes: its tag when its fetch failed,
nothing otherwise. -/
def fetchErrOf {α : Type} (e : MigErr) (slot : Option α) : Option MigErr :=
  match slot with
  | none => some e
  | some _ => none

/-- The failed fetches of a migration run, in the order the flattened
`errors.Join` aggregate lists them (most recent failure first); the
console-block entries appear only when the console component is
enabled. -/
def failedFetches (rp : RpMig) (s : MigStore) : List MigErr :=
  let consoleOn := rp.consoleEnabled.getD true
  ([if consoleOn then fetchErrOf MigErr.getConsoleIngress s.consoleIngress else none,
    if consoleOn then fetchErrOf MigErr.getConsoleDeploy s.consoleDeploy else none,
    if consoleOn then fetchErrOf MigErr.getConsoleSvc s.consoleSvc else none,
    if consoleOn then fetchErrOf MigErr.getConsoleSA s.consoleSA else none,
    fetchErrOf MigErr.getSTS s.sts,
    fetchErrOf MigErr.getPDB s.pdb,
    fetchErrOf MigErr.getSA s.serviceAccount,
    fetchErrOf MigErr.getExternalSvc s.externalSvc,
    fetchErrOf MigErr.getInternalSvc s.internalSvc,
    fetchErrOf MigErr.listPods s.pods,
    fetchErrOf MigErr.getConsole s.console,
    fetchErrOf MigErr.getCluster s.cluster]).filterMap id

theorem clusterStep_err (slot : Option ClusterObj) :
    (clusterStep slot).err = fetchErrOf MigErr.getCluster slot := by
  cases slot with
  | none => rfl
  | some c =>
    simp only [clusterStep]
    split <;> rfl

theorem consoleStep_err (slot : Option ConsoleObj) :
    (consoleStep slot).err = fetchErrOf MigErr.getConsole slot := by
  cases slot with
  | none => rfl
  | some c =>
    simp only [consoleStep]
    split <;> rfl

theorem podsStep_err (slot : Option (List PodObj)) :
    (podsStep slot).err = fetchErrOf MigErr.listPods slot := by
  cases slot <;> rfl

theorem internalServiceStep_err (rpName rpNs : String) (slot : Option ServiceObj) :
    (internalServiceStep rpName rpNs slot).err = fetchErrOf MigErr.getInternalSvc slot := by
  cases slot with
  | none => rfl
  | some svc =>
    simp only [internalServiceStep]
    split <;> rfl

theorem stampStep_err (rpName rpNs : String) (t : Target) (msg : String) (e : MigErr)
    (slot : Option KObject) :
    (stampStep rpName rpNs t msg e slot).err = fetchErrOf e slot := by
  cases slot with
  | none => rfl
  | some o =>
    simp only [stampStep]
    split <;> rfl

theorem stsStep_err (rpName rpNs : String) (slot : Option KObject) :
    (stsStep rpName rpNs slot).err = fetchErrOf MigErr.getSTS slot := by
  cases slot with
  | none => rfl
  | some o =>
    simp only [stsStep]
    split <;> rfl

theorem consoleServiceStep_err (rpName rpNs : String) (slot : Option ServiceObj) :
    (consoleServiceStep rpName rpNs slot).err = fetchErrOf MigErr.getConsoleSvc slot := by
  cases slot with
  | none => rfl
  | some svc =>
    simp only [consoleServiceStep]
    split <;> rfl

theorem consoleDeployStep_err (rpName rpNs : String) (stsVal : KObject)
    (slot : Option KObject) :
    (consoleDeployStep rpName rpNs stsVal slot).err = fetchErrOf MigErr.getConsoleDeploy slot := by
  cases slot with
  | none => rfl
  | some o =>
    simp only [consoleDeployStep]
    split <;> rfl

/-- C5: for every parent and store (hence for any pattern of failing
fetch/list calls), the aggregated error of `tryMigration` lists exactly
the entries of the steps whose own fetch failed — each failed step is
named, and only the failed steps — and every step whose own fetch
succeeded still executes independently of all other failures: whenever
its guard calls for a mutation, that mutation appears in the operation
log.  Instantiating the store with only the console slot absent gives the
claim's example: the one console entry and all ten remaining mutations. -/
theorem c5_migration_partial_failure (rp : RpMig) (s : MigStore) :
    (tryMigration rp s).errs = failedFetches rp s ∧
    (∀ c, s.cluster = some c → isRedpandaClusterManaged c = true →
      Op.update Target.cluster ∈ (tryMigration rp s).ops) ∧
    (∀ c, s.console = some c →
      (isConsoleManaged c || c.finalizers.contains ConsoleSAFinalizer
        || c.finalizers.contains ConsoleACLFinalizer) = true →
      Op.update Target.console ∈ (tryMigration rp s).ops) ∧
    (∀ ps p, s.pods = some ps → p ∈ ps → podSkip p = false →
      Op.update (Target.pod p.name) ∈ (tryMigration rp s).ops) ∧
    (∀ svc, s.internalSvc = some svc →
      (!hasLabelsAndAnnotations svc.meta rp.name rp.nspace
        || !kvEqual svc.selector
            [("app.kubernetes.io/instance", rp.name), ("app.kubernetes.io/name", "redpanda")])
        = true →
      Op.update Target.internalSvc ∈ (tryMigration rp s).ops) ∧
    (∀ o, s.externalSvc = some o → hasLabelsAndAnnotations o rp.name rp.nspace = false →
      Op.update Target.externalSvc ∈ (tryMigration rp s).ops) ∧
    (∀ o, s.serviceAccount = some o → hasLabelsAndAnnotations o rp.name rp.nspace = false →
      Op.update Target.serviceAccount ∈ (tryMigration rp s).ops) ∧
    (∀ o, s.pdb = some o → hasLabelsAndAnnotations o rp.name rp.nspace = false →
      Op.update Target.pdb ∈ (tryMigration rp s).ops) ∧
    (∀ o, s.sts = some o → hasLabelsAndAnnotations o rp.name rp.nspace = false →
      Op.delete Target.sts Propagation.orphan ∈ (tryMigration rp s).ops) ∧
    (rp.consoleEnabled.getD true = true →
      (∀ o, s.consoleSA = some o → hasLabelsAndAnnotations o rp.name rp.nspace = false →
        Op.update Target.consoleSA ∈ (tryMigration rp s).ops) ∧
      (∀ svc, s.consoleSvc = some svc →
        (!hasLabelsAndAnnotations svc.meta rp.name rp.nspace
          || !kvEqual svc.selector
              [("app.kubernetes.io/instance", rp.name), ("app.kubernetes.io/name", "console")])
          = true →
        Op.update Target.consoleSvc ∈ (tryMigration rp s).ops) ∧
      (∀ d, s.consoleDeploy = some d →
        hasLabelsAndAnnotations (s.sts.getD KObject.empty) rp.name rp.nspace = false →
        Op.delete Target.consoleDeploy Propagation.unspecified ∈ (tryMigration rp s).ops) ∧
      (∀ o, s.consoleIngress = some o → hasLabelsAndAnnotations o rp.name rp.nspace = false →
        Op.update Target.consoleIngress ∈ (tryMigration rp s).ops)) := by
  refine ⟨?_, ?_, ?_, ?_, ?_, ?_, ?_, ?_, ?_, ?_⟩
  · by_cases hon : rp.consoleEnabled.getD true = true
    · simp [tryMigration, failedFetches, hon, clusterStep_err, consoleStep_err, podsStep_err,
        internalServiceStep_err, stampStep_err, stsStep_err, consoleServiceStep_err,
        consoleDeployStep_err]
    · rw [Bool.not_eq_true] at hon
      simp [tryMigration, failedFetches, hon, clusterStep_err, consoleStep_err, podsStep_err,
        internalServiceStep_err, stampStep_err, stsStep_err, consoleServiceStep_err,
        consoleDeployStep_err]
  · intro c hc hm
    have hmem : Op.update Target.cluster ∈ (clusterStep s.cluster).ops := by
      rw [hc]
      simp [clusterStep, hm]
    simp [tryMigration, List.mem_append, hmem]
  · intro c hc hm
    have hmem : Op.update Target.console ∈ (consoleStep s.console).ops := by
      rw [hc]
      simp only [consoleStep]
      rw [hm]
      simp
    simp [tryMigration, List.mem_append, hmem]
  · intro ps p hps hp hskip
    have hmem : Op.update (Target.pod p.name) ∈ (podsStep s.pods).ops := by
      rw [hps]
      simp only [podsStep, List.mem_filterMap]
      exact ⟨p, hp, by simp [hskip]⟩
    simp [tryMigration, List.mem_append, hmem]
  · intro svc hc hg
    have hmem : Op.update Target.internalSvc
        ∈ (internalServiceStep rp.name rp.nspace s.internalSvc).ops := by
      rw [hc]
      simp only [internalServiceStep]
      rw [hg]
      simp
    simp [tryMigration, List.mem_append, hmem]
  · intro o hc hg
    have hmem : Op.update Target.externalSvc
        ∈ (stampStep rp.name rp.nspace Target.externalSvc "update external Service"
            MigErr.getExternalSvc s.externalSvc).ops := by
      rw [hc]
      simp [stampStep, hg]
    simp [tryMigration, List.mem_append, hmem]
  · intro o hc hg
    have hmem : Op.update Target.serviceAccount
        ∈ (stampStep rp.name rp.nspace Target.serviceAccount "update ServiceAccount"
            MigErr.getSA s.serviceAccount).ops := by
      rw [hc]
      simp [stampStep, hg]
    simp [tryMigration, List.mem_append, hmem]
  · intro o hc hg
    have hmem : Op.update Target.pdb
        ∈ (stampStep rp.name rp.nspace Target.pdb "update PodDistributionBudget"
            MigErr.getPDB s.pdb).ops := by
      rw [hc]
      simp [stampStep, hg]
    simp [tryMigration, List.mem_append, hmem]
  · intro o hc hg
    have hmem : Op.delete Target.sts Propagation.orphan
        ∈ (stsStep rp.name rp.nspace s.sts).ops := by
      rw [hc]
      simp [stsStep, hg]
    simp [tryMigration, List.mem_append, hmem]
  · intro hon
    refine ⟨?_, ?_, ?_, ?_⟩
    · intro o hc hg
      have hmem : Op.update Target.consoleSA
          ∈ (stampStep rp.name rp.nspace Target.consoleSA "update console ServiceAccount"
              MigErr.getConsoleSA s.consoleSA).ops := by
        rw [hc]
        simp [stampStep, hg]
      simp [tryMigration, hon, List.mem_append, hmem]
    · intro svc hc hg
      have hmem : Op.update Target.consoleSvc
          ∈ (consoleServiceStep rp.name rp.nspace s.consoleSvc).ops := by
        rw [hc]
        simp only [consoleServiceStep]
        rw [hg]
        simp
      simp [tryMigration, hon, List.mem_append, hmem]
    · intro d hd hg
      have hmem : Op.delete Target.consoleDeploy Propagation.unspecified
          ∈ (consoleDeployStep rp.name rp.nspace (s.sts.getD KObject.empty)
              s.consoleDeploy).ops := by
        rw [hd]
        simp [consoleDeployStep, hg]
      simp [tryMigration, hon, List.mem_append, hmem]
    · intro o hc hg
      have hmem : Op.update Target.consoleIngress
          ∈ (stampStep rp.name rp.nspace Target.consoleIngress "update console Ingress"
              MigErr.getConsoleIngress s.consoleIngress).ops := by
        rw [hc]
        simp [stampStep, hg]
      simp [tryMigration, hon, List.mem_append, hmem]

/-- A store whose console fetch fails while every other slot is present
and needs migration. -/
def failingStoreEx : MigStore :=
  { cluster := some { annotations := [], finalizers := [] },
    console := none,
    pods := some [{ name := "rp-0", labels := [], finalizers := [] }],
    internalSvc := some { meta := KObject.empty, selector := [] },
    externalSvc := some KObject.empty,
    serviceAccount := some KObject.empty,
    pdb := some KObject.empty,
    sts := some KObject.empty,
    consoleSA := some KObject.empty,
    consoleSvc := some { meta := KObject.empty, selector := [] },
    consoleDeploy := some KObject.empty,
    consoleIngress := some KObject.empty }

/-- Witness for C5 at the claim's example: only the console fetch fails,
the aggregate error is exactly that one entry and all ten remaining
mutations are observable. -/
theorem c5_migration_partial_failure_witness :
    (tryMigration rpMigEx failingStoreEx).errs = [MigErr.getConsole] ∧
    Op.update Target.cluster ∈ (tryMigration rpMigEx failingStoreEx).ops ∧
    Op.update (Target.pod "rp-0") ∈ (tryMigration rpMigEx failingStoreEx).ops ∧
    Op.update Target.internalSvc ∈ (tryMigration rpMigEx failingStoreEx).ops ∧
    Op.update Target.externalSvc ∈ (tryMigration rpMigEx failingStoreEx).ops ∧
    Op.update Target.serviceAccount ∈ (tryMigration rpMigEx failingStoreEx).ops ∧
    Op.update Target.pdb ∈ (tryMigration rpMigEx failingStoreEx).ops ∧
    Op.delete Target.sts Propagation.orphan ∈ (tryMigration rpMigEx failingStoreEx).ops ∧
    Op.update Target.consoleSA ∈ (tryMigration rpMigEx failingStoreEx).ops ∧
    Op.update Target.consoleSvc ∈ (tryMigration rpMigEx failingStoreEx).ops ∧
    Op.delete Target.consoleDeploy Propagation.unspecified
      ∈ (tryMigration rpMigEx failingStoreEx).ops ∧
    Op.update Target.consoleIngress ∈ (tryMigration rpMigEx failingStoreEx).ops := by
  have T := c5_migration_partial_failure rpMigEx failingStoreEx
  obtain ⟨he, hcl, _, hpods, hint, hext, hsa, hpdb, hsts, hconsole⟩ := T
  obtain ⟨hcsa, hcsvc, hcd, hci⟩ := hconsole (by decide)
  exact ⟨he.trans (by decide),
    hcl { annotations := [], finalizers := [] } rfl (by decide),
    hpods [{ name := "rp-0", labels := [], finalizers := [] }]
      { name := "rp-0", labels := [], finalizers := [] } rfl (by decide) (by decide),
    hint { meta := KObject.empty, selector := [] } rfl (by decide),
    hext KObject.empty rfl (by decide),
    hsa KObject.empty rfl (by decide),
    hpdb KObject.empty rfl (by decide),
    hsts KObject.empty rfl (by decide),
    hcsa KObject.empty rfl (by decide),
    hcsvc { meta := KObject.empty, selector := [] } rfl (by decide),
    hcd KObject.empty rfl (by decide),
    hci KObject.empty rfl (by decide)⟩

/-! ### StatefulSet adoption (C9) -/

/-- An operation is harmless to the StatefulSet: it never targets the
StatefulSet except as an orphan-propagation delete. -/
def stsOpSafe (op : Op) : Bool :=
  match op with
  | Op.update Target.sts => false
  | Op.delete Target.sts p => p == Propagation.orphan
  | _ => true

/-- The source's condition for deleting the StatefulSet: fetched and
lacking the new-management labels/annotations. -/
def stsNeedsDelete (rp : RpMig) (s : MigStore) : Bool :=
  match s.sts with
  | some o => !hasLabelsAndAnnotations o rp.name rp.nspace
  | none => false

theorem clusterStep_ops_safe (slot : Option ClusterObj) :
    (clusterStep slot).ops.all stsOpSafe = true ∧
    Op.delete Target.sts Propagation.orphan ∉ (clusterStep slot).ops := by
  cases slot with
  | none => exact ⟨rfl, by simp [clusterStep]⟩
  | some c =>
    by_cases h : isRedpandaClusterManaged c = true <;>
      simp [clusterStep, h, stsOpSafe]

theorem consoleStep_ops_safe (slot : Option ConsoleObj) :
    (consoleStep slot).ops.all stsOpSafe = true ∧
    Op.delete Target.sts Propagation.orphan ∉ (consoleStep slot).ops := by
  cases slot with
  | none => exact ⟨rfl, by simp [consoleStep]⟩
  | some c =>
    by_cases h : (isConsoleManaged c || c.finalizers.contains ConsoleSAFinalizer
        || c.finalizers.contains ConsoleACLFinalizer) = true
    · simp only [consoleStep]
      rw [h]
      simp [stsOpSafe]
    · rw [Bool.not_eq_true] at h
      simp only [consoleStep]
      rw [h]
      simp

theorem podsStep_ops_safe (slot : Option (List PodObj)) :
    (podsStep slot).ops.all stsOpSafe = true ∧
    Op.delete Target.sts Propagation.orphan ∉ (podsStep slot).ops := by
  cases slot with
  | none => exact ⟨rfl, by simp [podsStep]⟩
  | some ps =>
    constructor
    · simp only [podsStep, List.all_eq_true]
      intro op hop
      obtain ⟨p, hp, hpe⟩ := List.mem_filterMap.mp hop
      by_cases hs : podSkip p = true
      · simp [hs] at hpe
      · rw [Bool.not_eq_true] at hs
        simp only [hs, Bool.false_eq_true, if_false, Option.some.injEq] at hpe
        rw [← hpe]
        rfl
    · simp only [podsStep]
      intro hop
      obtain ⟨p, hp, hpe⟩ := List.mem_filterMap.mp hop
      by_cases hs : podSkip p = true
      · simp [hs] at hpe
      · rw [Bool.not_eq_true] at hs
        simp [hs] at hpe

theorem internalServiceStep_ops_safe (rpName rpNs : String) (slot : Option ServiceObj) :
    (internalServiceStep rpName rpNs slot).ops.all stsOpSafe = true ∧
    Op.delete Target.sts Propagation.orphan ∉ (internalServiceStep rpName rpNs slot).ops := by
  cases slot with
  | none => exact ⟨rfl, by simp [internalServiceStep]⟩
  | some svc =>
    simp only [internalServiceStep]
    split <;> simp [stsOpSafe]

theorem stampStep_ops_safe (rpName rpNs : String) (t : Target) (msg : String) (e : MigErr)
    (slot : Option KObject) (ht : stsOpSafe (Op.update t) = true) :
    (stampStep rpName rpNs t msg e slot).ops.all stsOpSafe = true ∧
    Op.delete Target.sts Propagation.orphan ∉ (stampStep rpName rpNs t msg e slot).ops := by
  cases slot with
  | none => exact ⟨rfl, by simp [stampStep]⟩
  | some o =>
    simp only [stampStep]
    split
    · simp [ht]
    · simp

theorem consoleServiceStep_ops_safe (rpName rpNs : String) (slot : Option ServiceObj) :
    (consoleServiceStep rpName rpNs slot).ops.all stsOpSafe = true ∧
    Op.delete Target.sts Propagation.orphan ∉ (consoleServiceStep rpName rpNs slot).ops := by
  cases slot with
  | none => exact ⟨rfl, by simp [consoleServiceStep]⟩
  | some svc =>
    simp only [consoleServiceStep]
    split <;> simp [stsOpSafe]

theorem consoleDeployStep_ops_safe (rpName rpNs : String) (stsVal : KObject)
    (slot : Option KObject) :
    (consoleDeployStep rpName rpNs stsVal slot).ops.all stsOpSafe = true ∧
    Op.delete Target.sts Propagation.orphan ∉ (consoleDeployStep rpName rpNs stsVal slot).ops := by
  cases slot with
  | none => exact ⟨rfl, by simp [consoleDeployStep]⟩
  | some o =>
    simp only [consoleDeployStep]
    split <;> simp [stsOpSafe]

theorem stsStep_ops_characterization (rpName rpNs : String) (slot : Option KObject) :
    (stsStep rpName rpNs slot).ops.all stsOpSafe = true ∧
    ((Op.delete Target.sts Propagation.orphan ∈ (stsStep rpName rpNs slot).ops)
      ↔ (match slot with
          | some o => !hasLabelsAndAnnotations o rpName rpNs
          | none => false) = true) ∧
    ((stsStep rpName rpNs slot).slot = slot ∨ (stsStep rpName rpNs slot).slot = none) := by
  cases slot with
  | none => exact ⟨rfl, by simp [stsStep], Or.inl rfl⟩
  | some o =>
    by_cases h : hasLabelsAndAnnotations o rpName rpNs = true
    · refine ⟨?_, ?_, ?_⟩ <;> simp [stsStep, h, stsOpSafe]
    · rw [Bool.not_eq_true] at h
      refine ⟨?_, ?_, ?_⟩ <;> simp [stsStep, h, stsOpSafe]

/-- C9: for every parent and store, every operation `tryMigration` issues
is harmless to the StatefulSet (no in-place Update ever targets it and any
delete that targets it carries orphan propagation); the orphan delete is
issued exactly when the fetched StatefulSet lacks the new-management
labels; and the StatefulSet slot in the store is either left exactly as it
was or removed by that delete — never replaced by a mutated object. -/
theorem c9_statefulset_orphan_only (rp : RpMig) (s : MigStore) :
    (tryMigration rp s).ops.all stsOpSafe = true ∧
    ((Op.delete Target.sts Propagation.orphan ∈ (tryMigration rp s).ops)
      ↔ stsNeedsDelete rp s = true) ∧
    ((tryMigration rp s).store.sts = s.sts ∨ (tryMigration rp s).store.sts = none) := by
  have hsts := stsStep_ops_characterization rp.name rp.nspace s.sts
  have h1 := clusterStep_ops_safe s.cluster
  have h2 := consoleStep_ops_safe s.console
  have h3 := podsStep_ops_safe s.pods
  have h4 := internalServiceStep_ops_safe rp.name rp.nspace s.internalSvc
  have h5 := stampStep_ops_safe rp.name rp.nspace Target.externalSvc "update external Service"
    MigErr.getExternalSvc s.externalSvc (by decide)
  have h6 := stampStep_ops_safe rp.name rp.nspace Target.serviceAccount "update ServiceAccount"
    MigErr.getSA s.serviceAccount (by decide)
  have h7 := stampStep_ops_safe rp.name rp.nspace Target.pdb "update PodDistributionBudget"
    MigErr.getPDB s.pdb (by decide)
  have h9 := stampStep_ops_safe rp.name rp.nspace Target.consoleSA
    "update console ServiceAccount" MigErr.getConsoleSA s.consoleSA (by decide)
  have h10 := consoleServiceStep_ops_safe rp.name rp.nspace s.consoleSvc
  have h11 := consoleDeployStep_ops_safe rp.name rp.nspace (s.sts.getD KObject.empty)
    s.consoleDeploy
  have h12 := stampStep_ops_safe rp.name rp.nspace Target.consoleIngress
    "update console Ingress" MigErr.getConsoleIngress s.consoleIngress (by decide)
  by_cases hon : rp.consoleEnabled.getD true = true
  · refine ⟨?_, ?_, ?_⟩
    · simp [tryMigration, hon, List.all_append, h1.1, h2.1, h3.1, h4.1, h5.1, h6.1, h7.1,
        hsts.1, h9.1, h10.1, h11.1, h12.1]
    · simp only [tryMigration, hon, if_true, List.mem_append]
      simp [h1.2, h2.2, h3.2, h4.2, h5.2, h6.2, h7.2, h9.2, h10.2, h11.2, h12.2,
        stsNeedsDelete]
      exact hsts.2.1
    · simpa [tryMigration] using hsts.2.2
  · rw [Bool.not_eq_true] at hon
    refine ⟨?_, ?_, ?_⟩
    · simp [tryMigration, hon, List.all_append, h1.1, h2.1, h3.1, h4.1, h5.1, h6.1, h7.1,
        hsts.1]
    · simp only [tryMigration, hon, Bool.false_eq_true, if_false, List.mem_append]
      simp [h1.2, h2.2, h3.2, h4.2, h5.2, h6.2, h7.2, stsNeedsDelete]
      exact hsts.2.1
    · simpa [tryMigration] using hsts.2.2

/-- Witness for C9: at a store whose StatefulSet lacks the labels, the
orphan delete is issued and every logged operation is sts-safe. -/
theorem c9_statefulset_orphan_only_witness :
    (tryMigration rpMigEx { migratedStoreEx with sts := some KObject.empty }).ops.all stsOpSafe
      = true ∧
    Op.delete Target.sts Propagation.orphan
      ∈ (tryMigration rpMigEx { migratedStoreEx with sts := some KObject.empty }).ops :=
  ⟨(c9_statefulset_orphan_only rpMigEx { migratedStoreEx with sts := some KObject.empty }).1,
   (c9_statefulset_orphan_only rpMigEx
      { migratedStoreEx with sts := some KObject.empty }).2.1.mpr (by decide)⟩

/-- C10: `setHelmLabelsAndAnnotations` replaces the label map with exactly
the managed-by label and the annotation map with exactly the release-name
and release-namespace annotations, discarding whatever was there, and the
result always satisfies `hasLabelsAndAnnotations`. -/
theorem c10_set_then_has_roundtrip (o : KObject) (rpName rpNs : String) :
    (setHelmLabelsAndAnnotations o rpName rpNs).labels
      = [("app.kubernetes.io/managed-by", "Helm")] ∧
    (setHelmLabelsAndAnnotations o rpName rpNs).annotations
      = [("meta.helm.sh/release-name", rpName), ("meta.helm.sh/release-namespace", rpNs)] ∧
    hasLabelsAndAnnotations (setHelmLabelsAndAnnotations o rpName rpNs) rpName rpNs = true := by
  refine ⟨rfl, rfl, ?_⟩
  simp [hasLabelsAndAnnotations, setHelmLabelsAndAnnotations, helm]

end RedpandaVerify
